import Mathlib

/-!
Verification of the prepare-sql-query module (src/index.mjs).

The JavaScript source is shallowly embedded: JS strings become Lean
strings (manipulated through their underlying character lists so that
every definition is structurally recursive and kernel-evaluable), JS
objects used as ordered string-keyed maps become association lists with
spread semantics (update in place, append when the key is new), and JS
exceptions become an explicit error type threaded through Except.
-/

namespace PrepareSql

/-- JS values that flow through filters and bindings in this module. -/
inductive Val where
  | vBool (b : Bool)
  | vInt (n : Int)
  | vStr (s : String)
deriving DecidableEq

/-- A JS object used as an ordered string-keyed map. -/
abbrev Obj : Type := List (String × Val)

/-- Association-list lookup, first match wins (JS property access). -/
def lookupA {α : Type} : List (String × α) → String → Option α
  | [], _ => none
  | (k, v) :: rest, key => if k = key then some v else lookupA rest key

/-- One JS spread step: update the value in place when the key exists,
append at the end otherwise.  Models the key ordering of
a JS object literal spread. -/
def objInsert (o : List (String × Val)) (k : String) (v : Val) : List (String × Val) :=
  if o.any (fun p => p.1 = k) then
    o.map (fun p => if p.1 = k then (k, v) else p)
  else o ++ [(k, v)]

/-- JS object spread of two maps, second overrides first in place. -/
def objMerge (a b : List (String × Val)) : List (String × Val) :=
  b.foldl (fun acc p => objInsert acc p.1 p.2) a

/-- The character class of the regexp at src/index.mjs line 10, by code
point: right bracket, left bracket, right brace, left brace, bang,
backslash, less-than, pipe, greater-than, comma, double quote, hash,
ampersand, asterisk, plus, question mark, backtick, dollar, right paren,
left paren, caret, percent, tilde, single quote, colon, semicolon,
numero sign (U+2116), equals. -/
def specialChars : List Char :=
  [Char.ofNat 0x5d, Char.ofNat 0x5b, Char.ofNat 0x7d, Char.ofNat 0x7b,
   Char.ofNat 0x21, Char.ofNat 0x5c, Char.ofNat 0x3c, Char.ofNat 0x7c,
   Char.ofNat 0x3e, Char.ofNat 0x2c, Char.ofNat 0x22, Char.ofNat 0x23,
   Char.ofNat 0x26, Char.ofNat 0x2a, Char.ofNat 0x2b, Char.ofNat 0x3f,
   Char.ofNat 0x60, Char.ofNat 0x24, Char.ofNat 0x29, Char.ofNat 0x28,
   Char.ofNat 0x5e, Char.ofNat 0x25, Char.ofNat 0x7e, Char.ofNat 0x27,
   Char.ofNat 0x3a, Char.ofNat 0x3b, Char.ofNat 0x2116, Char.ofNat 0x3d]

/-- Membership in the special character class. -/
def isSpecialChar (c : Char) : Bool := specialChars.contains c

/-- The JS WhiteSpace / LineTerminator set recognised by
String.prototype.trim, by code point. -/
def jsWhitespaceCodes : List Nat :=
  [0x9, 0xa, 0xb, 0xc, 0xd, 0x20, 0xa0, 0x1680,
   0x2000, 0x2001, 0x2002, 0x2003, 0x2004, 0x2005, 0x2006, 0x2007,
   0x2008, 0x2009, 0x200a, 0x2028, 0x2029, 0x202f, 0x205f, 0x3000, 0xfeff]

/-- Whether a character is JS whitespace. -/
def isJsWs (c : Char) : Bool := jsWhitespaceCodes.contains c.toNat

/-- JS String.prototype.trim on a character list. -/
def trimChars (cs : List Char) : List Char :=
  ((cs.dropWhile isJsWs).reverse.dropWhile isJsWs).reverse

/-- JS String.prototype.trim. -/
def jsTrim (s : String) : String := String.mk (trimChars s.data)

/-- src/index.mjs lines 9-13: trim the input, then delete every
character of the special class. -/
def removeSpecialSymbols (s : String) : String :=
  String.mk ((trimChars s.data).filter (fun c => !isSpecialChar c))

/-- Errors thrown by the module, named after the taxonomy in the spec:
configurationError covers the two explicit argument checks of
postgreSqlBuilder and the failing property access on a missing filter
rule; validationError is the bad-order throw of createMetaQuery;
executionError is the unparseable-explain throw of getCountRecords
(reachable only through the database oracle here); typeError covers the
JS TypeErrors raised when a relation field lacks its where fragment or
its type tag; stackOverflow stands for unbounded recursion and is
proved unreachable for the source, whose recursive builder call passes
no relatedFieldsData. -/
inductive Err where
  | configurationError
  | validationError
  | executionError
  | typeError
  | stackOverflow
deriving DecidableEq

/-- A WHERE condition fragment: optional query text, optional bindings. -/
structure Cond where
  query : Option String
  binding : Option Obj
deriving DecidableEq

/-- Array.prototype.join with a separator. -/
def joinSep (sep : String) : List String → String
  | [] => ""
  | [x] => x
  | x :: y :: rest => x ++ sep ++ joinSep sep (y :: rest)

/-- Whether the pattern is a prefix of the character list. -/
def listStartsWith : List Char → List Char → Bool
  | [], _ => true
  | _ :: _, [] => false
  | p :: ps, c :: cs => p = c && listStartsWith ps cs

/-- Replace every non-overlapping occurrence of the pattern, left to
right.  The fuel argument is the length of the subject: each step
consumes at least one character (the pattern at a match site is
nonempty), so the fuel never runs out. -/
def replaceAllAux (pat rep : List Char) : Nat → List Char → List Char
  | _, [] => []
  | 0, l => l
  | fuel + 1, c :: rest =>
    if listStartsWith pat (c :: rest) then
      rep ++ replaceAllAux pat rep fuel (List.drop pat.length (c :: rest))
    else
      c :: replaceAllAux pat rep fuel rest

/-- JS String.prototype.replaceAll for the nonempty patterns this module
uses. -/
def replaceAll (s pat rep : String) : String :=
  if pat.data.isEmpty then s
  else String.mk (replaceAllAux pat.data rep.data s.data.length s.data)

/-- One entry of the filter rule table (see the FILTER_WITH_TABLES
examples in the source comments). -/
structure FilterRule where
  table : String
  field : String
  query : Option String
deriving DecidableEq

/-- src/index.mjs lines 51-70.  For each filter key in insertion order,
look up its rule (a missing rule makes the JS property access throw,
the ConfigurationError of the spec taxonomy), substitute the value
placeholder in a manual query when one is present and nonempty, and
otherwise synthesise the equality condition. -/
def filtersHelper : Obj → List (String × FilterRule) → Except Err (List Cond)
  | [], _ => Except.ok []
  | (key, value) :: rest, rules =>
    match lookupA rules key with
    | none => Except.error Err.configurationError
    | some rule =>
      let manual : Option String := rule.query.map (fun t => replaceAll t ":value" (":" ++ key))
      let queryStr :=
        match manual with
        | some s => if s.data.isEmpty then rule.table ++ "." ++ rule.field ++ " = :" ++ key else s
        | none => rule.table ++ "." ++ rule.field ++ " = :" ++ key
      match filtersHelper rest rules with
      | Except.error e => Except.error e
      | Except.ok conds => Except.ok (⟨some queryStr, some [(key, value)]⟩ :: conds)

/-- Output of createWhereQuery: clause text plus merged bindings. -/
structure WhereResult where
  whereStr : String
  bindings : Obj
deriving DecidableEq

/-- src/index.mjs lines 80-95.  Parenthesise each nonempty condition,
join with AND, merge the bindings with spread semantics, and prefix the
nonempty clause with WHERE, or with AND when the caller already has a
WHERE. -/
def createWhereQuery (whereConditions : List Cond) (doNotAddWhere : Bool) : WhereResult :=
  let conditions := whereConditions.filterMap (fun c =>
    match c.query with
    | some q => if q.data.isEmpty then none else some ("(" ++ q ++ ")")
    | none => none)
  let bindings := whereConditions.foldl (fun acc c =>
    match c.binding with
    | some b => objMerge acc b
    | none => acc) []
  let joined := if conditions.isEmpty then "" else joinSep " AND " conditions
  let whereStr :=
    if joined.data.isEmpty then joined
    else if doNotAddWhere then " AND " ++ joined else " WHERE " ++ joined
  ⟨whereStr, bindings⟩

/-- The meta argument of createMetaQuery, all fields optional. -/
structure MetaParams where
  perPage : Option Int
  offset : Option Int
  order : Option String
  orderBy : Option String
deriving DecidableEq

/-- JS truthiness for an optional string: the empty string is falsy. -/
def optTruthy : Option String → Option String
  | some s => if s.data.isEmpty then none else some s
  | none => none

/-- JS String.prototype.toUpperCase restricted to the ASCII letters
this module compares against. -/
def jsToUpper (s : String) : String := String.mk (s.data.map Char.toUpper)

/-- Output of createMetaQuery: sorting text plus pagination bindings. -/
structure SortResult where
  sorting : String
  bindings : Obj
deriving DecidableEq

/-- src/index.mjs lines 111-152.  With a truthy orderRaw the meta-based
ordering (and its order validation) is skipped entirely; otherwise the
upper-cased order must be ASC or DESC, a truthy orderBy is sanitised
and optionally qualified with the table, and a bare table falls back to
id DESC, created_at DESC.  Pagination is always appended, with the JS
truthiness quirk that a perPage or offset of 0 falls back to the
default (25 and 0). -/
def createMetaQuery (meta : Option MetaParams) (table : Option String)
    (orderRaw : Option String) : Except Err SortResult :=
  let tbl := optTruthy table
  let sortingE : Except Err String :=
    match optTruthy orderRaw with
    | some raw => Except.ok (" " ++ raw)
    | none =>
      let order :=
        match meta.bind MetaParams.order with
        | some o => if (jsToUpper o).data.isEmpty then "ASC" else jsToUpper o
        | none => "ASC"
      if order = "ASC" ∨ order = "DESC" then
        match optTruthy (meta.bind MetaParams.orderBy) with
        | some ob =>
          let orderByTrim := removeSpecialSymbols ob
          let field :=
            match tbl with
            | some t => t ++ "." ++ orderByTrim
            | none => orderByTrim
          Except.ok (" ORDER BY " ++ field ++ " " ++ order)
        | none =>
          match tbl with
          | some t => Except.ok (" ORDER BY " ++ t ++ ".id DESC, " ++ t ++ ".created_at DESC")
          | none => Except.ok ""
      else Except.error Err.validationError
  match sortingE with
  | Except.error e => Except.error e
  | Except.ok s =>
    let b1 : Obj :=
      match meta.bind MetaParams.perPage with
      | some p => if p = 0 then [("perPage", Val.vInt 25)] else [("perPage", Val.vInt p)]
      | none => [("perPage", Val.vInt 25)]
    let b2 : Obj :=
      match meta.bind MetaParams.offset with
      | some o => if o = 0 then objInsert b1 "offset" (Val.vInt 0) else objInsert b1 "offset" (Val.vInt o)
      | none => objInsert b1 "offset" (Val.vInt 0)
    Except.ok ⟨s ++ " OFFSET :offset LIMIT :perPage", b2⟩

/-- The perPage binding value the code produces for a given meta. -/
def jsPerPage (meta : Option MetaParams) : Int :=
  match meta.bind MetaParams.perPage with
  | some p => if p = 0 then 25 else p
  | none => 25

/-- The offset binding value the code produces for a given meta. -/
def jsOffset (meta : Option MetaParams) : Int :=
  match meta.bind MetaParams.offset with
  | some o => if o = 0 then 0 else o
  | none => 0

/-- Output of prepareSQLQuery. -/
structure PrepResult where
  preparedQuery : String
  bindings : Obj
  totalCount : Nat
deriving DecidableEq

/-- The count estimator boundary (getCountRecords, src/index.mjs lines
160-171): an external database call that receives the query and its
bindings and yields a row count, or an error such as the unparseable
explain output.  Treated as an oracle. -/
abbrev CountOracle : Type := String → Obj → Except Err Nat

/-- The condition list after the optional filter step of
prepareSQLQuery (src/index.mjs lines 215-218): a null filters object
keeps the caller conditions, any filters object appends the compiled
fragments. -/
def effectiveWhere (whereConds : List Cond) (filters : Option Obj)
    (filterRules : List (String × FilterRule)) : Except Err (List Cond) :=
  match filters with
  | none => Except.ok whereConds
  | some fs =>
    match filtersHelper fs filterRules with
    | Except.error e => Except.error e
    | Except.ok fw => Except.ok (whereConds ++ fw)

/-- The text appended for a truthy groupBy (src/index.mjs line 227). -/
def groupPart : Option String → String
  | none => ""
  | some g => if g.data.isEmpty then "" else " " ++ g

/-- src/index.mjs lines 197-243.  Compile filters, join conditions,
append grouping, run the count oracle on the query as of that point,
then append sorting and pagination and merge the bindings.  The second
component of the result is the list of oracle calls made, in order,
each with the query text and bindings handed over. -/
def prepareSQLQuery (db : CountOracle) (mainQuery : String) (whereConds : List Cond)
    (doNotAddWhere : Bool) (groupBy : Option String) (meta : Option MetaParams)
    (orderRaw : Option String) (sortingTableName : Option String)
    (filters : Option Obj) (filterRules : List (String × FilterRule)) :
    Except Err PrepResult × List (String × Obj) :=
  match effectiveWhere whereConds filters filterRules with
  | Except.error e => (Except.error e, [])
  | Except.ok conds =>
    let cq := createWhereQuery conds doNotAddWhere
    let countQuery := mainQuery ++ cq.whereStr ++ groupPart groupBy
    match db countQuery cq.bindings with
    | Except.error e => (Except.error e, [(countQuery, cq.bindings)])
    | Except.ok totalCount =>
      match createMetaQuery meta sortingTableName orderRaw with
      | Except.error e => (Except.error e, [(countQuery, cq.bindings)])
      | Except.ok sq =>
        (Except.ok ⟨countQuery ++ sq.sorting, objMerge cq.bindings sq.bindings, totalCount⟩,
         [(countQuery, cq.bindings)])

/-- Output of createSqlQueryForBuilder. -/
structure BuiltQuery where
  preparedQuery : String
  bindings : Obj
deriving DecidableEq

/-- src/index.mjs lines 300-314: append the joined conditions to the
main query, without grouping, counting or pagination. -/
def createSqlQueryForBuilder (mainQuery : String) (whereList : List Cond) : BuiltQuery :=
  let cq := createWhereQuery whereList false
  ⟨mainQuery ++ cq.whereStr, cq.bindings⟩

/-- The relation type tag: an array literal (many) or a plain object
literal (one). -/
inductive RelType where
  | arr
  | obj
deriving DecidableEq

mutual
/-- A per-model field schema: schema-qualified table name with alias,
and the mapping from logical field name to field spec, in declaration
order. -/
inductive ModelSQLField : Type where
  | mk : String → List (String × ModelField) → ModelSQLField

/-- One field spec: optional select expressions, join clauses and where
fragment for a column field, and optional related schema and type tag
for a relation field.  The JS code probes these properties dynamically;
each Option mirrors presence of the property. -/
inductive ModelField : Type where
  | mk : Option (List String) → Option (List String) → Option Cond →
      Option ModelSQLField → Option RelType → ModelField
end

/-- Table name of a schema. -/
def ModelSQLField.tableName : ModelSQLField → String
  | .mk t _ => t

/-- Field list of a schema. -/
def ModelSQLField.fields : ModelSQLField → List (String × ModelField)
  | .mk _ fs => fs

/-- Select expressions of a field spec. -/
def ModelField.select : ModelField → Option (List String)
  | .mk s _ _ _ _ => s

/-- Join clauses of a field spec. -/
def ModelField.join : ModelField → Option (List String)
  | .mk _ j _ _ _ => j

/-- Where fragment of a field spec. -/
def ModelField.cond : ModelField → Option Cond
  | .mk _ _ c _ _ => c

/-- Related schema of a relation field spec. -/
def ModelField.relation : ModelField → Option ModelSQLField
  | .mk _ _ _ r _ => r

/-- Type tag of a relation field spec. -/
def ModelField.rtype : ModelField → Option RelType
  | .mk _ _ _ _ t => t

/-- The relatedFieldsData argument: relation field name to requested
nested field names. -/
abbrev RelMap : Type := List (String × List String)

/-- An entry of the select accumulator Set.  A JS Set deduplicates
object elements by identity, and the arrays added for column fields are
the select arrays of the schema field specs, one distinct object per
field name within a call, so a column entry is identified by the field
name that contributed it; relation subqueries are added as strings,
which a JS Set deduplicates by value. -/
inductive SelEntry where
  | arr (field : String) (exprs : List String)
  | str (s : String)
deriving DecidableEq

/-- JS Set sameness for select entries: identity for arrays (same
originating field), value for strings. -/
def selSame : SelEntry → SelEntry → Bool
  | .arr f _, .arr g _ => f = g
  | .str a, .str b => a = b
  | _, _ => false

/-- JS Set sameness for join entries (arrays, identity by originating
field name). -/
def joinSame (a b : String × List String) : Bool := a.1 = b.1

/-- JS Set sameness for where query strings (value). -/
def strSame (a b : String) : Bool := a = b

/-- JS Set sameness for stringified binding pairs: JSON.stringify of a
one-pair object is injective on these values, so value equality of the
pair. -/
def pairSame (a b : String × Val) : Bool := a = b

/-- JS Set.add: append unless an element the Set considers equal is
already present.  Preserves insertion order, as a JS Set does. -/
def setAdd {α : Type} (same : α → α → Bool) (l : List α) (a : α) : List α :=
  if l.any (fun b => same b a) then l else l ++ [a]

/-- The four accumulator Sets of postgreSqlBuilder (src/index.mjs lines
442-445). -/
structure Accum where
  select : List SelEntry
  join : List (String × List String)
  whereQuery : List String
  whereBindings : List (String × Val)
deriving DecidableEq

/-- The empty accumulators. -/
def Accum.empty : Accum := ⟨[], [], [], []⟩

/-- Output of postgreSqlBuilder: the assembled main query and the
condition list (the source calls the second component where). -/
structure BuilderResult where
  mainQuery : String
  whereList : List Cond
deriving DecidableEq

/-- JS truthiness of the nested-field-list guard: present and nonempty. -/
def relNonEmpty : Option (List String) → Option (List String)
  | some l => if l.isEmpty then none else some l
  | none => none

/-- The column branch of the builder loop (src/index.mjs lines
500-510): add nonempty select and join arrays and a truthy where query
to their Sets, then add each where binding pair stringified. -/
def columnStep (mf : ModelField) (field : String) (acc : Accum) : Accum :=
  let a1 :=
    match mf.select with
    | some sel => if sel.isEmpty then acc else { acc with select := setAdd selSame acc.select (SelEntry.arr field sel) }
    | none => acc
  let a2 :=
    match mf.join with
    | some js => if js.isEmpty then a1 else { a1 with join := setAdd joinSame a1.join (field, js) }
    | none => a1
  let a3 :=
    match mf.cond with
    | some c =>
      match c.query with
      | some q => if q.data.isEmpty then a2 else { a2 with whereQuery := setAdd strSame a2.whereQuery q }
      | none => a2
    | none => a2
  match mf.cond with
  | some c =>
    match c.binding with
    | some b => { a3 with whereBindings := b.foldl (fun bs kv => setAdd pairSame bs kv) a3.whereBindings }
    | none => a3
  | none => a3

/-- One iteration of the builder loop (src/index.mjs lines 448-511),
parameterised by the recursive builder call used for relation fields.
A field with a nonempty nested field list and a relation schema is
compiled recursively (the recursive call passes no relatedFieldsData),
the correlating where fragment is pushed onto the related condition
list, the reduced subquery is wrapped according to the type tag and
added to the select Set, and the subquery bindings are added
stringified; a missing where fragment or type tag reproduces the JS
TypeError.  Any other field takes the column branch, where an unknown
field name contributes nothing. -/
def buildStepImpl (recurse : Option ModelSQLField → List String → RelMap → Except Err BuilderResult)
    (schema : ModelSQLField) (relatedFields : RelMap) (acc : Accum) (field : String) :
    Except Err Accum :=
  match lookupA schema.fields field with
  | none => Except.ok acc
  | some mf =>
    match relNonEmpty (lookupA relatedFields field), mf.relation with
    | some nested, some rel =>
      match recurse (some rel) nested [] with
      | Except.error e => Except.error e
      | Except.ok relatedBuilderData =>
        match mf.cond with
        | none => Except.error Err.typeError
        | some w =>
          let subQueryData := createSqlQueryForBuilder relatedBuilderData.mainQuery
            (relatedBuilderData.whereList ++ [w])
          match mf.rtype with
          | none => Except.error Err.typeError
          | some ty =>
            let subQuery :=
              match ty with
              | RelType.arr => "(SELECT jsonb_agg(" ++ field ++ "_alias) FROM (" ++
                  subQueryData.preparedQuery ++ ") AS " ++ field ++ "_alias) AS " ++ field
              | RelType.obj => "(SELECT to_jsonb(" ++ field ++ "_alias) FROM (" ++
                  subQueryData.preparedQuery ++ ") AS " ++ field ++ "_alias) AS " ++ field
            Except.ok
              { acc with
                select := setAdd selSame acc.select (SelEntry.str subQuery),
                whereBindings := subQueryData.bindings.foldl
                  (fun bs kv => setAdd pairSame bs kv) acc.whereBindings }
    | _, _ => Except.ok (columnStep mf field acc)

/-- The builder loop over the requested field names. -/
def buildLoop (step : Accum → String → Except Err Accum) :
    List String → Accum → Except Err Accum
  | [], acc => Except.ok acc
  | f :: rest, acc =>
    match step acc f with
    | Except.error e => Except.error e
    | Except.ok acc2 => buildLoop step rest acc2

/-- String form of one select Set entry: Array.prototype.join coerces
an array element to its comma-joined items. -/
def renderSelEntry : SelEntry → String
  | .arr _ exprs => joinSep "," exprs
  | .str s => s

/-- src/index.mjs lines 513-530: turn the Sets into the output, joining
select entries with comma-newline and join entries with newline,
wrapping each where query string as a condition, reducing the
stringified binding pairs into one spread-merged object appended as a
final binding-only condition when nonempty, and assembling the main
query with a space-separated (possibly empty) join section. -/
def renderBuilder (schema : ModelSQLField) (acc : Accum) : BuilderResult :=
  let queries := acc.whereQuery.map (fun q => (⟨some q, none⟩ : Cond))
  let bindings := acc.whereBindings.foldl (fun o kv => objInsert o kv.1 kv.2) []
  let selectStr := joinSep ",\n" (acc.select.map renderSelEntry)
  let joinStr := joinSep "\n" (acc.join.map (fun e => joinSep "," e.2))
  let whereList := if bindings.isEmpty then queries else queries ++ [⟨none, some bindings⟩]
  ⟨"SELECT " ++ selectStr ++ " FROM " ++ schema.tableName ++ " " ++ joinStr, whereList⟩

/-- One level of postgreSqlBuilder (src/index.mjs lines 428-531) for
the explicit-field-list entry points the claims cover (info null):
require a schema and a nonempty field list, run the loop, render. -/
def builderCore (recurse : Option ModelSQLField → List String → RelMap → Except Err BuilderResult)
    (schemaOpt : Option ModelSQLField) (fieldsData : List String) (relatedFields : RelMap) :
    Except Err BuilderResult :=
  match schemaOpt with
  | none => Except.error Err.configurationError
  | some schema =>
    if fieldsData.isEmpty then Except.error Err.configurationError
    else
      match buildLoop (buildStepImpl recurse schema relatedFields) fieldsData Accum.empty with
      | Except.error e => Except.error e
      | Except.ok acc => Except.ok (renderBuilder schema acc)

/-- The builder as called recursively: its own recursive branch is
unreachable because every recursive call passes an empty
relatedFieldsData (src/index.mjs line 466), proved below. -/
def innerBuilder : Option ModelSQLField → List String → RelMap → Except Err BuilderResult :=
  builderCore (fun _ _ _ => Except.error Err.stackOverflow)

/-- postgreSqlBuilder at the top level: one level of the loop whose
relation fields recurse into the depth-two builder. -/
def postgreSqlBuilder (schemaOpt : Option ModelSQLField) (fieldsData : List String)
    (relatedFields : RelMap) : Except Err BuilderResult :=
  builderCore innerBuilder schemaOpt fieldsData relatedFields

/-- Fixture: the filter rule table of end-to-end scenario 1. -/
def articleRules : List (String × FilterRule) :=
  [("isPublished", ⟨"data.articles", "is_published", none⟩)]

/-- Fixture: a column-only users schema. -/
def usersSchema : ModelSQLField :=
  ModelSQLField.mk "data.users u"
    [("id", ModelField.mk (some ["u.id"]) none none none none),
     ("name", ModelField.mk (some ["u.name"]) none none none none)]

/-- Fixture: two distinct fields whose select arrays have identical
content. -/
def dupSelectSchema : ModelSQLField :=
  ModelSQLField.mk "data.users u"
    [("a", ModelField.mk (some ["u.id"]) none none none none),
     ("b", ModelField.mk (some ["u.id"]) none none none none)]

/-- Fixture: the related-model schema of the relation examples. -/
def userSubSchema : ModelSQLField :=
  ModelSQLField.mk "data.users u"
    [("id", ModelField.mk (some ["u.id"]) none none none none),
     ("firstName", ModelField.mk (some ["u.first_name"]) none none none none)]

/-- Fixture: a feedback schema with one-cardinality and
many-cardinality relation fields to the users schema. -/
def feedbackSchema : ModelSQLField :=
  ModelSQLField.mk "data.feedbacks f"
    [("id", ModelField.mk (some ["f.id"]) none none none none),
     ("author", ModelField.mk none none (some ⟨some "u.id = f.author_id", none⟩)
       (some userSubSchema) (some RelType.obj)),
     ("authors", ModelField.mk none none (some ⟨some "u.id = f.author_id", none⟩)
       (some userSubSchema) (some RelType.arr))]

theorem mem_trimChars {c : Char} {l : List Char} (h : c ∈ trimChars l) : c ∈ l := by
  unfold trimChars at h
  rw [List.mem_reverse] at h
  have h2 := (List.dropWhile_sublist (l := (l.dropWhile isJsWs).reverse) (p := isJsWs)).subset h
  rw [List.mem_reverse] at h2
  exact (List.dropWhile_sublist (l := l) (p := isJsWs)).subset h2

theorem filter_trimChars_filter (p : Char → Bool) (l : List Char) :
    (trimChars (l.filter p)).filter p = trimChars (l.filter p) := by
  apply List.filter_eq_self.mpr
  intro a ha
  exact List.of_mem_filter (mem_trimChars ha)

/-- Claim C4 counterexample: sanitising the string bang-space-a once
yields space-a (the removed bang exposes a leading space that trim ran
too early to catch), and sanitising again yields just a, so the
sanitizer is not idempotent and its result is not always the
remove-then-trim normal form. -/
theorem removeSpecialSymbols_not_idempotent :
    removeSpecialSymbols (removeSpecialSymbols "! a") ≠ removeSpecialSymbols "! a" := by
  decide

/-- Claim C4 (amended): the sanitizer trims first and only then removes
the special character class, so a second application agrees with
trimming the first result; idempotence holds exactly when the first
result carries no leading or trailing whitespace. -/
theorem removeSpecialSymbols_twice (s : String) :
    removeSpecialSymbols (removeSpecialSymbols s) = jsTrim (removeSpecialSymbols s) := by
  unfold removeSpecialSymbols jsTrim
  show String.mk ((trimChars ((trimChars s.data).filter _)).filter _) = _
  rw [filter_trimChars_filter]

theorem filtersHelper_missing {rules : List (String × FilterRule)} {k : String} {v : Val} :
    ∀ fs : Obj, (k, v) ∈ fs → lookupA rules k = none →
    filtersHelper fs rules = Except.error Err.configurationError := by
  intro fs
  induction fs with
  | nil => intro h _; cases h
  | cons p rest ih =>
    intro hmem hmiss
    obtain ⟨k', v'⟩ := p
    rcases List.mem_cons.mp hmem with heq | hrest
    · have hk : k' = k := (Prod.mk.inj heq).1.symm
      subst hk
      simp only [filtersHelper, hmiss]
    · cases hl : lookupA rules k' with
      | none => simp only [filtersHelper, hl]
      | some rule => simp only [filtersHelper, hl, ih hrest hmiss]

/-- Claim C1: end-to-end scenario 1.  With the article filter rule
table, the isPublished filter, no meta and the articles sorting table,
prepareSQLQuery emits the base query followed by exactly the claimed
WHERE, ORDER BY and pagination text, binds isPublished to true, offset
to 0 and perPage to 25, and returns whatever count the oracle gave for
the filtered query. -/
theorem prepareSQLQuery_scenario1 (db : CountOracle) (n : Nat)
    (h : db "SELECT * FROM data.articles WHERE (data.articles.is_published = :isPublished)"
        [("isPublished", Val.vBool true)] = Except.ok n) :
    prepareSQLQuery db "SELECT * FROM data.articles" [] false none none none
      (some "data.articles") (some [("isPublished", Val.vBool true)]) articleRules =
    (Except.ok
      ⟨"SELECT * FROM data.articles" ++
        " WHERE (data.articles.is_published = :isPublished) ORDER BY data.articles.id DESC, data.articles.created_at DESC OFFSET :offset LIMIT :perPage",
       [("isPublished", Val.vBool true), ("perPage", Val.vInt 25), ("offset", Val.vInt 0)], n⟩,
     [("SELECT * FROM data.articles WHERE (data.articles.is_published = :isPublished)",
       [("isPublished", Val.vBool true)])]) := by
  have step : prepareSQLQuery db "SELECT * FROM data.articles" [] false none none none
      (some "data.articles") (some [("isPublished", Val.vBool true)]) articleRules =
      (match db "SELECT * FROM data.articles WHERE (data.articles.is_published = :isPublished)"
          [("isPublished", Val.vBool true)] with
       | Except.error e =>
         (Except.error e,
          [("SELECT * FROM data.articles WHERE (data.articles.is_published = :isPublished)",
            [("isPublished", Val.vBool true)])])
       | Except.ok tc =>
         (Except.ok
           ⟨"SELECT * FROM data.articles" ++
             " WHERE (data.articles.is_published = :isPublished) ORDER BY data.articles.id DESC, data.articles.created_at DESC OFFSET :offset LIMIT :perPage",
            [("isPublished", Val.vBool true), ("perPage", Val.vInt 25), ("offset", Val.vInt 0)], tc⟩,
          [("SELECT * FROM data.articles WHERE (data.articles.is_published = :isPublished)",
            [("isPublished", Val.vBool true)])])) := rfl
  rw [step, h]

/-- Closed witness for C1 with a constant count oracle. -/
theorem prepareSQLQuery_scenario1_witness :
    (fun _ _ => Except.ok 7 : CountOracle)
        "SELECT * FROM data.articles WHERE (data.articles.is_published = :isPublished)"
        [("isPublished", Val.vBool true)] = Except.ok 7 ∧
    prepareSQLQuery (fun _ _ => Except.ok 7) "SELECT * FROM data.articles" [] false none none none
      (some "data.articles") (some [("isPublished", Val.vBool true)]) articleRules =
    (Except.ok
      ⟨"SELECT * FROM data.articles" ++
        " WHERE (data.articles.is_published = :isPublished) ORDER BY data.articles.id DESC, data.articles.created_at DESC OFFSET :offset LIMIT :perPage",
       [("isPublished", Val.vBool true), ("perPage", Val.vInt 25), ("offset", Val.vInt 0)], 7⟩,
     [("SELECT * FROM data.articles WHERE (data.articles.is_published = :isPublished)",
       [("isPublished", Val.vBool true)])]) :=
  ⟨rfl, prepareSQLQuery_scenario1 (fun _ _ => Except.ok 7) 7 rfl⟩

/-- Claim C2: any filters object containing a key without a rule makes
prepareSQLQuery fail with the ConfigurationError of the taxonomy, and
the oracle call trace is empty, so the failure happens before any
database call. -/
theorem prepareSQLQuery_unknown_filter_key (db : CountOracle) (mainQuery : String)
    (whereConds : List Cond) (doNotAddWhere : Bool) (groupBy : Option String)
    (meta : Option MetaParams) (orderRaw sortingTableName : Option String)
    (fs : Obj) (rules : List (String × FilterRule)) (k : String) (v : Val)
    (hmem : (k, v) ∈ fs) (hmiss : lookupA rules k = none) :
    prepareSQLQuery db mainQuery whereConds doNotAddWhere groupBy meta orderRaw
      sortingTableName (some fs) rules = (Except.error Err.configurationError, []) := by
  have he : effectiveWhere whereConds (some fs) rules = Except.error Err.configurationError := by
    simp only [effectiveWhere, filtersHelper_missing fs hmem hmiss]
  simp only [prepareSQLQuery, he]

/-- Closed witness for C2: an unknown ghost filter key. -/
theorem prepareSQLQuery_unknown_filter_key_witness :
    ("ghost", Val.vBool true) ∈ ([("ghost", Val.vBool true)] : Obj) ∧
    lookupA articleRules "ghost" = none ∧
    prepareSQLQuery (fun _ _ => Except.ok 7) "SELECT * FROM data.articles" [] false none none
      none (some "data.articles") (some [("ghost", Val.vBool true)]) articleRules =
    (Except.error Err.configurationError, []) :=
  ⟨List.mem_singleton.mpr rfl, rfl,
   prepareSQLQuery_unknown_filter_key (fun _ _ => Except.ok 7) "SELECT * FROM data.articles"
     [] false none none none (some "data.articles") [("ghost", Val.vBool true)] articleRules
     "ghost" (Val.vBool true) (List.mem_singleton.mpr rfl) rfl⟩

/-- Claim C3: whenever the filter step succeeds, the one and only query
handed to the count oracle is the base query with the joined WHERE or
AND clause and the groupBy text appended and nothing else, and on
success the returned preparedQuery is that counted query with the
sorting and pagination text appended after it, with the count taken on
the unpaginated query. -/
theorem count_query_precedes_pagination (db : CountOracle) (mainQuery : String)
    (whereConds : List Cond) (doNotAddWhere : Bool) (groupBy : Option String)
    (meta : Option MetaParams) (orderRaw sortingTableName : Option String)
    (filters : Option Obj) (rules : List (String × FilterRule)) (conds : List Cond)
    (heff : effectiveWhere whereConds filters rules = Except.ok conds) :
    (prepareSQLQuery db mainQuery whereConds doNotAddWhere groupBy meta orderRaw
        sortingTableName filters rules).2 =
      [(mainQuery ++ (createWhereQuery conds doNotAddWhere).whereStr ++ groupPart groupBy,
        (createWhereQuery conds doNotAddWhere).bindings)] ∧
    ∀ r, (prepareSQLQuery db mainQuery whereConds doNotAddWhere groupBy meta orderRaw
        sortingTableName filters rules).1 = Except.ok r →
      ∃ sq, createMetaQuery meta sortingTableName orderRaw = Except.ok sq ∧
        r.preparedQuery =
          mainQuery ++ (createWhereQuery conds doNotAddWhere).whereStr ++ groupPart groupBy ++
            sq.sorting ∧
        db (mainQuery ++ (createWhereQuery conds doNotAddWhere).whereStr ++ groupPart groupBy)
          (createWhereQuery conds doNotAddWhere).bindings = Except.ok r.totalCount := by
  simp only [prepareSQLQuery, heff]
  cases hdb : db (mainQuery ++ (createWhereQuery conds doNotAddWhere).whereStr ++
      groupPart groupBy) (createWhereQuery conds doNotAddWhere).bindings with
  | error e => exact ⟨rfl, fun r hr => by simp at hr⟩
  | ok tc =>
    cases hmeta : createMetaQuery meta sortingTableName orderRaw with
    | error e => exact ⟨rfl, fun r hr => by simp at hr⟩
    | ok sq =>
      refine ⟨rfl, fun r hr => ⟨sq, rfl, ?_, ?_⟩⟩
      · have hr2 : (⟨mainQuery ++ (createWhereQuery conds doNotAddWhere).whereStr ++
            groupPart groupBy ++ sq.sorting,
            objMerge (createWhereQuery conds doNotAddWhere).bindings sq.bindings,
            tc⟩ : PrepResult) = r := Except.ok.inj hr
        rw [← hr2]
      · have hr2 : (⟨mainQuery ++ (createWhereQuery conds doNotAddWhere).whereStr ++
            groupPart groupBy ++ sq.sorting,
            objMerge (createWhereQuery conds doNotAddWhere).bindings sq.bindings,
            tc⟩ : PrepResult) = r := Except.ok.inj hr
        rw [← hr2]

/-- Closed witness for C3 on scenario 1 inputs. -/
theorem count_query_precedes_pagination_witness :
    effectiveWhere [] (some [("isPublished", Val.vBool true)]) articleRules =
      Except.ok [⟨some "data.articles.is_published = :isPublished",
        some [("isPublished", Val.vBool true)]⟩] ∧
    (prepareSQLQuery (fun _ _ => Except.ok 7) "SELECT * FROM data.articles" [] false none none
        none (some "data.articles") (some [("isPublished", Val.vBool true)]) articleRules).2 =
      [("SELECT * FROM data.articles" ++
          (createWhereQuery [⟨some "data.articles.is_published = :isPublished",
            some [("isPublished", Val.vBool true)]⟩] false).whereStr ++ groupPart none,
        (createWhereQuery [⟨some "data.articles.is_published = :isPublished",
          some [("isPublished", Val.vBool true)]⟩] false).bindings)] :=
  ⟨rfl,
   (count_query_precedes_pagination (fun _ _ => Except.ok 7) "SELECT * FROM data.articles" []
     false none none none (some "data.articles") (some [("isPublished", Val.vBool true)])
     articleRules [⟨some "data.articles.is_published = :isPublished",
       some [("isPublished", Val.vBool true)]⟩] rfl).1⟩

theorem strApp_assoc (a b c : String) : a ++ b ++ c = a ++ (b ++ c) := by
  obtain ⟨a⟩ := a
  obtain ⟨b⟩ := b
  obtain ⟨c⟩ := c
  show String.mk (a ++ b ++ c) = String.mk (a ++ (b ++ c))
  rw [List.append_assoc]

theorem strApp_empty (a : String) : a ++ "" = a := by
  obtain ⟨a⟩ := a
  show String.mk (a ++ []) = String.mk a
  rw [List.append_nil]

theorem buildStepImpl_column
    (recurse : Option ModelSQLField → List String → RelMap → Except Err BuilderResult)
    (schema : ModelSQLField) (rf : RelMap) (acc : Accum) (f : String) (mf : ModelField)
    (hmf : lookupA schema.fields f = some mf) (hrel : mf.relation = none) :
    buildStepImpl recurse schema rf acc f = Except.ok (columnStep mf f acc) := by
  simp only [buildStepImpl, hmf]
  cases relNonEmpty (lookupA rf f) <;> simp [hrel]

theorem buildStepImpl_skip
    (recurse : Option ModelSQLField → List String → RelMap → Except Err BuilderResult)
    (schema : ModelSQLField) (rf : RelMap) (acc : Accum) (f : String)
    (hmf : lookupA schema.fields f = none) :
    buildStepImpl recurse schema rf acc f = Except.ok acc := by
  simp only [buildStepImpl, hmf]

/-- Claim C5 counterexample: on a two-column users schema the builder
separates the select items with a comma and a newline and leaves a
trailing space where the empty join list was interpolated, so the main
query is not the single-line string of the claim. -/
theorem builder_scenario3_counterexample :
    postgreSqlBuilder (some usersSchema) ["id", "name"] [] =
      Except.ok ⟨"SELECT u.id,\nu.name FROM data.users u ", []⟩ ∧
    "SELECT u.id,\nu.name FROM data.users u " ≠ "SELECT u.id,u.name FROM data.users u" :=
  ⟨rfl, by decide⟩

/-- Claim C5 (amended): for every schema whose id and name fields are
plain single-expression column fields with no join and no where,
requesting the fields id and name yields where equal to the empty list
and mainQuery equal to SELECT, the two select expressions in requested
order separated by a comma and a newline, FROM, the table name, and a
trailing space for the empty join section. -/
theorem builder_two_column_query (tname : String) (fs : List (String × ModelField))
    (rf : RelMap) (e1 e2 : String)
    (h1 : lookupA fs "id" = some (ModelField.mk (some [e1]) none none none none))
    (h2 : lookupA fs "name" = some (ModelField.mk (some [e2]) none none none none)) :
    postgreSqlBuilder (some (ModelSQLField.mk tname fs)) ["id", "name"] rf =
      Except.ok ⟨"SELECT " ++ e1 ++ ",\n" ++ e2 ++ " FROM " ++ tname ++ " ", []⟩ := by
  have hmf1 : lookupA (ModelSQLField.mk tname fs).fields "id" =
      some (ModelField.mk (some [e1]) none none none none) := h1
  have hmf2 : lookupA (ModelSQLField.mk tname fs).fields "name" =
      some (ModelField.mk (some [e2]) none none none none) := h2
  have s1 := buildStepImpl_column innerBuilder (ModelSQLField.mk tname fs) rf Accum.empty
    "id" _ hmf1 rfl
  have s2 := buildStepImpl_column innerBuilder (ModelSQLField.mk tname fs)
    rf (columnStep (ModelField.mk (some [e1]) none none none none) "id" Accum.empty) "name"
    _ hmf2 rfl
  simp only [postgreSqlBuilder, builderCore, buildLoop, s1, s2, List.isEmpty_cons]
  show Except.ok (renderBuilder _ _) = _
  have hacc : columnStep (ModelField.mk (some [e2]) none none none none) "name"
      (columnStep (ModelField.mk (some [e1]) none none none none) "id" Accum.empty) =
      ⟨[SelEntry.arr "id" [e1], SelEntry.arr "name" [e2]], [], [], []⟩ := rfl
  rw [hacc]
  show Except.ok (⟨"SELECT " ++ (e1 ++ ",\n" ++ e2) ++ " FROM " ++ tname ++ " " ++ "", []⟩ :
    BuilderResult) = _
  rw [strApp_empty, strApp_assoc e1]
  rw [show "SELECT " ++ (e1 ++ (",\n" ++ e2)) = "SELECT " ++ e1 ++ (",\n" ++ e2) from
    (strApp_assoc _ _ _).symm]
  rw [show "SELECT " ++ e1 ++ (",\n" ++ e2) = "SELECT " ++ e1 ++ ",\n" ++ e2 from
    (strApp_assoc _ _ _).symm]

/-- Closed witness for C5 (amended) on a posts schema. -/
theorem builder_two_column_query_witness :
    lookupA [("id", ModelField.mk (some ["p.id"]) none none none none),
      ("name", ModelField.mk (some ["p.name"]) none none none none)] "id" =
      some (ModelField.mk (some ["p.id"]) none none none none) ∧
    postgreSqlBuilder (some (ModelSQLField.mk "data.posts p"
      [("id", ModelField.mk (some ["p.id"]) none none none none),
       ("name", ModelField.mk (some ["p.name"]) none none none none)])) ["id", "name"] [] =
      Except.ok ⟨"SELECT " ++ "p.id" ++ ",\n" ++ "p.name" ++ " FROM " ++ "data.posts p" ++ " ",
        []⟩ :=
  ⟨rfl, builder_two_column_query "data.posts p"
    [("id", ModelField.mk (some ["p.id"]) none none none none),
     ("name", ModelField.mk (some ["p.name"]) none none none none)] [] "p.id" "p.name" rfl rfl⟩

/-- Claim C6 counterexample: a supplied perPage of 0 is falsy in JS, so
the binding falls back to 25 instead of the supplied value. -/
theorem metaQuery_perPage_zero_counterexample :
    createMetaQuery (some ⟨some 0, none, none, none⟩) none none =
      Except.ok ⟨" OFFSET :offset LIMIT :perPage",
        [("perPage", Val.vInt 25), ("offset", Val.vInt 0)]⟩ ∧
    lookupA [("perPage", Val.vInt 25), ("offset", Val.vInt 0)] "perPage" ≠
      some (Val.vInt 0) :=
  ⟨rfl, by decide⟩

/-- Claim C6 (amended): whenever createMetaQuery returns, its sorting
string ends in the pagination text even when no ordering clause was
emitted, and its bindings are exactly perPage and offset, where perPage
is the supplied meta.perPage when it is present and nonzero and 25 when
it is absent or 0, and offset is the supplied meta.offset when present
and nonzero and 0 otherwise. -/
theorem metaQuery_pagination_bindings (meta : Option MetaParams) (table orderRaw : Option String)
    (sq : SortResult) (h : createMetaQuery meta table orderRaw = Except.ok sq) :
    (∃ pre, sq.sorting = pre ++ " OFFSET :offset LIMIT :perPage") ∧
    sq.bindings = [("perPage", Val.vInt (jsPerPage meta)), ("offset", Val.vInt (jsOffset meta))] := by
  unfold createMetaQuery at h
  simp only [] at h
  split at h
  · cases h
  · rename_i s hs
    refine ⟨⟨s, ?_⟩, ?_⟩
    · have := Except.ok.inj h
      rw [← this]
    · have := Except.ok.inj h
      rw [← this]
      show (match meta.bind MetaParams.offset with
        | some o => if o = 0 then objInsert _ "offset" (Val.vInt 0)
            else objInsert _ "offset" (Val.vInt o)
        | none => objInsert _ "offset" (Val.vInt 0)) = _
      unfold jsPerPage jsOffset
      cases hp : meta.bind MetaParams.perPage with
      | none =>
        cases ho : meta.bind MetaParams.offset with
        | none => rfl
        | some o =>
          by_cases h0 : o = 0 <;> simp [h0, objInsert]
      | some p =>
        by_cases hp0 : p = 0 <;>
          cases ho : meta.bind MetaParams.offset with
          | none => simp [hp0, objInsert]
          | some o =>
            by_cases h0 : o = 0 <;> simp [hp0, h0, objInsert]

/-- Closed witness for C6 (amended) at a meta supplying perPage 10 and
offset 5. -/
theorem metaQuery_pagination_bindings_witness :
    createMetaQuery (some ⟨some 10, some 5, none, none⟩) none none =
      Except.ok ⟨" OFFSET :offset LIMIT :perPage",
        [("perPage", Val.vInt 10), ("offset", Val.vInt 5)]⟩ ∧
    (∃ pre, (⟨" OFFSET :offset LIMIT :perPage",
        [("perPage", Val.vInt 10), ("offset", Val.vInt 5)]⟩ : SortResult).sorting =
      pre ++ " OFFSET :offset LIMIT :perPage") ∧
    (⟨" OFFSET :offset LIMIT :perPage",
        [("perPage", Val.vInt 10), ("offset", Val.vInt 5)]⟩ : SortResult).bindings =
      [("perPage", Val.vInt (jsPerPage (some ⟨some 10, some 5, none, none⟩))),
       ("offset", Val.vInt (jsOffset (some ⟨some 10, some 5, none, none⟩)))] :=
  ⟨rfl, metaQuery_pagination_bindings (some ⟨some 10, some 5, none, none⟩) none none _ rfl⟩

/-- Claim C7 counterexample: with an orderRaw override the meta-based
ordering is skipped entirely, so an invalid order value sideways raises
no error and the call succeeds. -/
theorem metaQuery_sideways_orderRaw_counterexample :
    createMetaQuery (some ⟨none, none, some "sideways", none⟩) none
        (some "ORDER BY t.x DESC") =
      Except.ok ⟨" ORDER BY t.x DESC OFFSET :offset LIMIT :perPage",
        [("perPage", Val.vInt 25), ("offset", Val.vInt 0)]⟩ ∧
    createMetaQuery (some ⟨none, none, some "sideways", none⟩) none
        (some "ORDER BY t.x DESC") ≠ Except.error Err.validationError :=
  ⟨rfl, fun h => Except.noConfusion h⟩

/-- Claim C7 (amended): createMetaQuery fails with ValidationError
exactly when no truthy orderRaw is supplied and the upper-cased order
is nonempty and neither ASC nor DESC; with a truthy orderRaw it always
returns, and it always returns when order is absent, empty (the
falsy-string fallback to ASC), or a case variant of ASC or DESC.  The
last conjunct states the exactly-when as a biconditional. -/
theorem metaQuery_order_validation (meta : Option MetaParams) (table orderRaw : Option String) :
    (∀ o, meta.bind MetaParams.order = some o → optTruthy orderRaw = none →
      jsToUpper o ≠ "" → jsToUpper o ≠ "ASC" → jsToUpper o ≠ "DESC" →
      createMetaQuery meta table orderRaw = Except.error Err.validationError) ∧
    (∀ raw, optTruthy orderRaw = some raw →
      ∃ sq, createMetaQuery meta table orderRaw = Except.ok sq) ∧
    ((meta.bind MetaParams.order = none ∨
        ∃ o, meta.bind MetaParams.order = some o ∧
          (jsToUpper o = "" ∨ jsToUpper o = "ASC" ∨ jsToUpper o = "DESC")) →
      ∃ sq, createMetaQuery meta table orderRaw = Except.ok sq) ∧
    (createMetaQuery meta table orderRaw = Except.error Err.validationError ↔
      optTruthy orderRaw = none ∧ ∃ o, meta.bind MetaParams.order = some o ∧
        jsToUpper o ≠ "" ∧ jsToUpper o ≠ "ASC" ∧ jsToUpper o ≠ "DESC") := by
  have h1 : ∀ o, meta.bind MetaParams.order = some o → optTruthy orderRaw = none →
      jsToUpper o ≠ "" → jsToUpper o ≠ "ASC" → jsToUpper o ≠ "DESC" →
      createMetaQuery meta table orderRaw = Except.error Err.validationError := by
    intro o ho hraw hne hasc hdesc
    have he : (jsToUpper o).data.isEmpty = false := by
      cases he : (jsToUpper o).data.isEmpty with
      | true => exact absurd (String.ext (List.isEmpty_iff.mp he)) hne
      | false => rfl
    have horder : (if (jsToUpper o).data.isEmpty then "ASC" else jsToUpper o) = jsToUpper o := by
      rw [he]
      simp
    simp only [createMetaQuery, hraw, ho, horder]
    rw [if_neg]
    rintro (hx | hx)
    · exact hasc hx
    · exact hdesc hx
  have h2 : ∀ raw, optTruthy orderRaw = some raw →
      ∃ sq, createMetaQuery meta table orderRaw = Except.ok sq := by
    intro raw hraw
    simp only [createMetaQuery, hraw]
    exact ⟨_, rfl⟩
  have h3 : (meta.bind MetaParams.order = none ∨
      ∃ o, meta.bind MetaParams.order = some o ∧
        (jsToUpper o = "" ∨ jsToUpper o = "ASC" ∨ jsToUpper o = "DESC")) →
      ∃ sq, createMetaQuery meta table orderRaw = Except.ok sq := by
    intro hvalid
    cases hraw : optTruthy orderRaw with
    | some raw => exact h2 raw hraw
    | none =>
      have hord : (match meta.bind MetaParams.order with
          | some o => if (jsToUpper o).data.isEmpty then "ASC" else jsToUpper o
          | none => "ASC") = "ASC" ∨
          (match meta.bind MetaParams.order with
          | some o => if (jsToUpper o).data.isEmpty then "ASC" else jsToUpper o
          | none => "ASC") = "DESC" := by
        rcases hvalid with hnone | ⟨o, ho, hcase⟩
        · left
          simp [hnone]
        · cases he : (jsToUpper o).data.isEmpty with
          | true =>
            left
            simp [ho, he]
          | false =>
            rcases hcase with hemp | hcase2
            · have htrue : (jsToUpper o).data.isEmpty = true := by
                rw [hemp]
                decide
              rw [he] at htrue
              exact Bool.noConfusion htrue
            · simpa [ho, he] using hcase2
      simp only [createMetaQuery, hraw]
      rw [if_pos hord]
      cases optTruthy (meta.bind MetaParams.orderBy) with
      | some ob => exact ⟨_, rfl⟩
      | none =>
        cases optTruthy table with
        | some t => exact ⟨_, rfl⟩
        | none => exact ⟨_, rfl⟩
  refine ⟨h1, h2, h3, ?_, ?_⟩
  · intro herr
    cases hraw : optTruthy orderRaw with
    | some raw =>
      obtain ⟨sq, hsq⟩ := h2 raw hraw
      rw [hsq] at herr
      exact Except.noConfusion herr
    | none =>
      refine ⟨rfl, ?_⟩
      cases ho : meta.bind MetaParams.order with
      | none =>
        obtain ⟨sq, hsq⟩ := h3 (Or.inl ho)
        rw [hsq] at herr
        exact Except.noConfusion herr
      | some o =>
        refine ⟨o, rfl, ?_, ?_, ?_⟩
        · intro hx
          obtain ⟨sq, hsq⟩ := h3 (Or.inr ⟨o, ho, Or.inl hx⟩)
          rw [hsq] at herr
          exact Except.noConfusion herr
        · intro hx
          obtain ⟨sq, hsq⟩ := h3 (Or.inr ⟨o, ho, Or.inr (Or.inl hx)⟩)
          rw [hsq] at herr
          exact Except.noConfusion herr
        · intro hx
          obtain ⟨sq, hsq⟩ := h3 (Or.inr ⟨o, ho, Or.inr (Or.inr hx)⟩)
          rw [hsq] at herr
          exact Except.noConfusion herr
  · rintro ⟨hraw, o, ho, hne, hasc, hdesc⟩
    exact h1 o ho hraw hne hasc hdesc

/-- Closed witness for C7 (amended): order sideways with no orderRaw
fails with ValidationError. -/
theorem metaQuery_order_validation_witness :
    (some (⟨none, none, some "sideways", none⟩ : MetaParams) : Option MetaParams).bind
      MetaParams.order = some "sideways" ∧
    createMetaQuery (some ⟨none, none, some "sideways", none⟩) none none =
      Except.error Err.validationError :=
  ⟨rfl, (metaQuery_order_validation (some ⟨none, none, some "sideways", none⟩) none none).1
    "sideways" rfl rfl (by decide) (by decide) (by decide)⟩

theorem setAdd_str_nodup {l : List String} {a : String} (h : l.Nodup) :
    (setAdd strSame l a).Nodup := by
  unfold setAdd
  split
  · exact h
  · rename_i hany
    have hnotmem : a ∉ l := by
      intro hmem
      exact hany (List.any_eq_true.mpr ⟨a, hmem, by simp [strSame]⟩)
    simp [List.nodup_append, h, hnotmem]

theorem columnStep_whereQuery_nodup (mf : ModelField) (f : String) (acc : Accum)
    (h : acc.whereQuery.Nodup) : (columnStep mf f acc).whereQuery.Nodup := by
  unfold columnStep
  repeat' split
  all_goals
    first
      | exact h
      | exact setAdd_str_nodup h

theorem buildStepImpl_whereQuery_nodup
    (recurse : Option ModelSQLField → List String → RelMap → Except Err BuilderResult)
    (schema : ModelSQLField) (rf : RelMap) (acc : Accum) (f : String) (acc' : Accum)
    (hstep : buildStepImpl recurse schema rf acc f = Except.ok acc')
    (h : acc.whereQuery.Nodup) : acc'.whereQuery.Nodup := by
  unfold buildStepImpl at hstep
  cases hmf : lookupA schema.fields f with
  | none =>
    simp only [hmf] at hstep
    rw [← Except.ok.inj hstep]
    exact h
  | some mf =>
    simp only [hmf] at hstep
    cases hrn : relNonEmpty (lookupA rf f) with
    | none =>
      simp only [hrn] at hstep
      rw [← Except.ok.inj hstep]
      exact columnStep_whereQuery_nodup mf f acc h
    | some nested =>
      simp only [hrn] at hstep
      cases hrel : mf.relation with
      | none =>
        simp only [hrel] at hstep
        rw [← Except.ok.inj hstep]
        exact columnStep_whereQuery_nodup mf f acc h
      | some rel =>
        simp only [hrel] at hstep
        cases hrec : recurse (some rel) nested [] with
        | error e =>
          simp only [hrec] at hstep
          exact Except.noConfusion hstep
        | ok sub =>
          simp only [hrec] at hstep
          cases hw : mf.cond with
          | none =>
            simp only [hw] at hstep
            exact Except.noConfusion hstep
          | some w =>
            simp only [hw] at hstep
            cases hty : mf.rtype with
            | none =>
              simp only [hty] at hstep
              exact Except.noConfusion hstep
            | some ty =>
              simp only [hty] at hstep
              rw [← Except.ok.inj hstep]
              exact h

theorem buildLoop_whereQuery_nodup (step : Accum → String → Except Err Accum)
    (preserve : ∀ acc f acc', step acc f = Except.ok acc' →
      acc.whereQuery.Nodup → acc'.whereQuery.Nodup) :
    ∀ (l : List String) (acc acc2 : Accum), buildLoop step l acc = Except.ok acc2 →
      acc.whereQuery.Nodup → acc2.whereQuery.Nodup := by
  intro l
  induction l with
  | nil =>
    intro acc acc2 hl hn
    rw [← Except.ok.inj hl]
    exact hn
  | cons f rest ih =>
    intro acc acc2 hl hn
    unfold buildLoop at hl
    cases hs : step acc f with
    | error e =>
      rw [hs] at hl
      exact Except.noConfusion hl
    | ok acc1 =>
      rw [hs] at hl
      exact ih acc1 acc2 hl (preserve acc f acc1 hs hn)

theorem filterMap_query_mk (l : List String) :
    List.filterMap (Cond.query ∘ fun q => ({ query := some q, binding := none } : Cond)) l
      = l := by
  induction l with
  | nil => rfl
  | cons a t ih => simp [List.filterMap_cons, Function.comp, Cond.query, ih]

theorem renderBuilder_filterMap (schema : ModelSQLField) (acc : Accum) :
    (renderBuilder schema acc).whereList.filterMap Cond.query = acc.whereQuery := by
  unfold renderBuilder
  dsimp only
  split
  · rw [List.filterMap_map, filterMap_query_mk]
  · rw [List.filterMap_append, List.filterMap_map, filterMap_query_mk]
    simp [List.filterMap_cons, Cond.query]

theorem builderCore_nonempty
    (recurse : Option ModelSQLField → List String → RelMap → Except Err BuilderResult)
    (schema : ModelSQLField) (fd : List String) (rf : RelMap) (hfd : fd.isEmpty = false) :
    builderCore recurse (some schema) fd rf =
      match buildLoop (buildStepImpl recurse schema rf) fd Accum.empty with
      | Except.error e => Except.error e
      | Except.ok acc => Except.ok (renderBuilder schema acc) := by
  simp only [builderCore, hfd, Bool.false_eq_true, if_false]

/-- Claim C8 counterexample: two different requested fields whose
schema select arrays have identical content are added as two distinct
array objects, which a JS Set does not deduplicate, so the expression
appears twice in mainQuery. -/
theorem builder_select_dup_counterexample :
    postgreSqlBuilder (some dupSelectSchema) ["a", "b"] [] =
      Except.ok ⟨"SELECT u.id,\nu.id FROM data.users u ", []⟩ ∧
    "SELECT u.id,\nu.id FROM data.users u " ≠ "SELECT u.id FROM data.users u " :=
  ⟨rfl, by decide⟩

/-- Claim C8 (amended): WHERE-query fragments are accumulated as a Set
of strings and therefore deduplicated by value, so the output condition
list never repeats a query string; select and join entries are arrays
deduplicated only by object identity, so a field requested twice
contributes once but two different fields with identical array content
are emitted twice. -/
theorem builder_whereQuery_nodup (schemaOpt : Option ModelSQLField) (fd : List String)
    (rf : RelMap) (r : BuilderResult)
    (h : postgreSqlBuilder schemaOpt fd rf = Except.ok r) :
    (r.whereList.filterMap Cond.query).Nodup := by
  cases schemaOpt with
  | none => exact Except.noConfusion h
  | some schema =>
    cases fd with
    | nil => exact Except.noConfusion h
    | cons f0 rest =>
      rw [postgreSqlBuilder, builderCore_nonempty innerBuilder schema (f0 :: rest) rf rfl] at h
      cases hbl : buildLoop (buildStepImpl innerBuilder schema rf) (f0 :: rest) Accum.empty with
      | error e =>
        simp only [hbl] at h
        exact Except.noConfusion h
      | ok acc =>
        simp only [hbl] at h
        have h3 : renderBuilder schema acc = r := Except.ok.inj h
        rw [← h3, renderBuilder_filterMap]
        exact buildLoop_whereQuery_nodup _
          (fun a f a' hs hn => buildStepImpl_whereQuery_nodup innerBuilder schema rf a f a' hs hn)
          (f0 :: rest) Accum.empty acc hbl List.nodup_nil

/-- Closed witness for C8 (amended): a schema where two fields carry
the same where query emits it once, and the output query list has no
duplicates. -/
theorem builder_whereQuery_nodup_witness :
    postgreSqlBuilder
      (some (ModelSQLField.mk "data.users u"
        [("a", ModelField.mk (some ["u.id"]) none (some ⟨some "u.x = 1", none⟩) none none),
         ("b", ModelField.mk (some ["u.name"]) none (some ⟨some "u.x = 1", none⟩) none none)]))
      ["a", "b"] [] =
      Except.ok ⟨"SELECT u.id,\nu.name FROM data.users u ",
        [⟨some "u.x = 1", none⟩]⟩ ∧
    ((⟨"SELECT u.id,\nu.name FROM data.users u ",
        [⟨some "u.x = 1", none⟩]⟩ : BuilderResult).whereList.filterMap Cond.query).Nodup :=
  ⟨rfl,
   builder_whereQuery_nodup
     (some (ModelSQLField.mk "data.users u"
       [("a", ModelField.mk (some ["u.id"]) none (some ⟨some "u.x = 1", none⟩) none none),
        ("b", ModelField.mk (some ["u.name"]) none (some ⟨some "u.x = 1", none⟩) none none)]))
     ["a", "b"] [] _ rfl⟩

theorem builderCore_rf_nil
    (r1 r2 : Option ModelSQLField → List String → RelMap → Except Err BuilderResult)
    (s : Option ModelSQLField) (fd : List String) :
    builderCore r1 s fd [] = builderCore r2 s fd [] := by
  cases s with
  | none => rfl
  | some schema =>
    simp only [builderCore]
    have hstep : buildStepImpl r1 schema [] = buildStepImpl r2 schema [] := by
      funext acc f
      unfold buildStepImpl
      cases hmf : lookupA schema.fields f with
      | none => rfl
      | some mf => cases mf.relation <;> rfl
    rw [hstep]

/-- Claim C9: a requested field with a nonempty nested field list and a
relation schema makes the builder step compile the related model (the
recursive call receives no relatedFieldsData, so it equals the
top-level builder on the nested fields), append the correlating where
fragment to the related condition list, reduce it with
createSqlQueryForBuilder, and add the reduced subquery to the select
Set wrapped in jsonb_agg for the array type tag and to_jsonb for the
object type tag, together with the subquery bindings. -/
theorem builder_relation_subquery (schema : ModelSQLField) (rf : RelMap) (acc : Accum)
    (f : String) (mf : ModelField) (rel : ModelSQLField) (w : Cond) (ty : RelType)
    (nested : List String) (sub : BuilderResult)
    (hmf : lookupA schema.fields f = some mf)
    (hrel : mf.relation = some rel)
    (hw : mf.cond = some w)
    (hty : mf.rtype = some ty)
    (hnested : lookupA rf f = some nested)
    (hne : nested.isEmpty = false)
    (hsub : postgreSqlBuilder (some rel) nested [] = Except.ok sub) :
    buildStepImpl innerBuilder schema rf acc f = Except.ok
      { acc with
        select := setAdd selSame acc.select (SelEntry.str
          (match ty with
           | RelType.arr => "(SELECT jsonb_agg(" ++ f ++ "_alias) FROM (" ++
               (createSqlQueryForBuilder sub.mainQuery (sub.whereList ++ [w])).preparedQuery ++
               ") AS " ++ f ++ "_alias) AS " ++ f
           | RelType.obj => "(SELECT to_jsonb(" ++ f ++ "_alias) FROM (" ++
               (createSqlQueryForBuilder sub.mainQuery (sub.whereList ++ [w])).preparedQuery ++
               ") AS " ++ f ++ "_alias) AS " ++ f)),
        whereBindings := (createSqlQueryForBuilder sub.mainQuery
            (sub.whereList ++ [w])).bindings.foldl
          (fun bs kv => setAdd pairSame bs kv) acc.whereBindings } := by
  have hinner : innerBuilder (some rel) nested [] = Except.ok sub := by
    rw [show innerBuilder (some rel) nested [] = postgreSqlBuilder (some rel) nested [] from
      builderCore_rf_nil _ _ (some rel) nested]
    exact hsub
  simp only [buildStepImpl, hmf, hnested, relNonEmpty, hne, Bool.false_eq_true, if_false,
    hrel, hinner, hw, hty]
  cases ty <;> rfl

/-- Closed witness for C9: the author relation of the feedback schema
compiles to a correlated to_jsonb subquery select item. -/
theorem builder_relation_subquery_witness :
    lookupA feedbackSchema.fields "author" =
      some (ModelField.mk none none (some ⟨some "u.id = f.author_id", none⟩)
        (some userSubSchema) (some RelType.obj)) ∧
    postgreSqlBuilder (some userSubSchema) ["id", "firstName"] [] =
      Except.ok ⟨"SELECT u.id,\nu.first_name FROM data.users u ", []⟩ ∧
    buildStepImpl innerBuilder feedbackSchema [("author", ["id", "firstName"])] Accum.empty
      "author" = Except.ok
      ⟨[SelEntry.str
          ("(SELECT to_jsonb(author_alias) FROM (SELECT u.id,\nu.first_name FROM data.users u  WHERE (u.id = f.author_id)) AS author_alias) AS author")],
        [], [], []⟩ :=
  ⟨rfl, rfl,
   builder_relation_subquery feedbackSchema [("author", ["id", "firstName"])] Accum.empty
     "author"
     (ModelField.mk none none (some ⟨some "u.id = f.author_id", none⟩)
       (some userSubSchema) (some RelType.obj))
     userSubSchema ⟨some "u.id = f.author_id", none⟩ RelType.obj ["id", "firstName"]
     ⟨"SELECT u.id,\nu.first_name FROM data.users u ", []⟩
     rfl rfl rfl rfl rfl rfl rfl⟩

theorem buildLoop_skip (step : Accum → String → Except Err Accum) (f : String)
    (hstep : ∀ acc, step acc f = Except.ok acc) (l2 : List String) :
    ∀ (l1 : List String) (acc : Accum),
      buildLoop step (l1 ++ f :: l2) acc = buildLoop step (l1 ++ l2) acc := by
  intro l1
  induction l1 with
  | nil =>
    intro acc
    simp only [List.nil_append, buildLoop, hstep acc]
  | cons a t ih =>
    intro acc
    simp only [List.cons_append, buildLoop]
    cases hs : step acc a with
    | error e => rfl
    | ok acc1 => exact ih acc1

/-- Claim C10 counterexample: when the unknown field is the only one
requested the call still succeeds with an empty select list, while the
same call without that field fails the required-fields check, so the
output does not equal what would be produced had the field not been
requested. -/
theorem builder_unknown_only_counterexample :
    postgreSqlBuilder (some usersSchema) ["ghost"] [] =
      Except.ok ⟨"SELECT  FROM data.users u ", []⟩ ∧
    postgreSqlBuilder (some usersSchema) [] [] = Except.error Err.configurationError :=
  ⟨rfl, rfl⟩

/-- Claim C10 (amended): a requested field with no schema entry is
silently skipped, contributing nothing, and as long as at least one
other field remains in the request the output equals what the builder
produces without the unknown field; when it is the only field the call
succeeds with an empty select list whereas the empty request errors. -/
theorem builder_unknown_field_skipped (schema : ModelSQLField) (rf : RelMap) (f : String)
    (l1 l2 : List String) (hmiss : lookupA schema.fields f = none)
    (hne : (l1 ++ l2).isEmpty = false) :
    postgreSqlBuilder (some schema) (l1 ++ f :: l2) rf =
      postgreSqlBuilder (some schema) (l1 ++ l2) rf := by
  have hne2 : (l1 ++ f :: l2).isEmpty = false := by cases l1 <;> rfl
  unfold postgreSqlBuilder
  rw [builderCore_nonempty _ _ _ _ hne2, builderCore_nonempty _ _ _ _ hne]
  rw [buildLoop_skip (buildStepImpl innerBuilder schema rf) f
    (fun acc => buildStepImpl_skip innerBuilder schema rf acc f hmiss) l2 l1 Accum.empty]

/-- Closed witness for C10 (amended): requesting ghost between id and
name changes nothing. -/
theorem builder_unknown_field_skipped_witness :
    lookupA usersSchema.fields "ghost" = none ∧
    postgreSqlBuilder (some usersSchema) ["id", "ghost", "name"] [] =
      postgreSqlBuilder (some usersSchema) ["id", "name"] [] :=
  ⟨rfl, builder_unknown_field_skipped usersSchema [] "ghost" ["id"] ["name"] rfl rfl⟩

end PrepareSql
